import Mathlib

set_option autoImplicit false

/-!
Shallow embedding of the ICP zoological-park canister (TypeScript on azle).

The repository contains two evolutions of the same canister:
* `src/src/index.ts` — embedded below in namespace `Idx`; this evolution
  validates payloads and carries an ownership check on `deleteZoo`.
* `src/unnamed/part_000` — embedded below in namespace `P0`; this evolution
  performs no payload validation and no ownership check, and adds the query
  helpers (`getAnimalsInZoo`, `getZooOwner`, `getAnimalCountInZoo`,
  `getAnimalAge`, `getZooCount`, `getAnimalCount`) plus `updateAnimal` and
  `deleteAnimal`.
`addAnimalToZoo` and `deleteAnimalFromZoo` are textually identical in the two
files and are embedded once, at top level.

Modelling conventions:
* `Principal` is modelled by its textual form (`String`).
* `nat64` timestamps are `Nat`; `ic.time()` is passed in as an argument.
* `uuidv4()` is passed in as the `freshId` argument.
* The TypeScript `number` field `age` is modelled as `Int`: every behaviour the
  code exhibits on it (the `!payload.age` falsiness test, which holds exactly at
  zero for integral values, and the `age <= 0` comparison) is integral.
* `StableBTreeMap` is modelled as an association list kept sorted by key
  (point lookup, insert-or-replace, delete, values in key order, count);
  its `get` returns a copy, so mutating a retrieved record does not change
  the store until `insert` is called — hence in `addAnimalToZoo` and
  `deleteAnimalFromZoo` the store only changes on the `insert` path.
* An azle `Result<T, string>` is `Res T` below; a JavaScript falsiness test
  `!x` on a string is `x = ""` and on a number is `x = 0`.
-/

/-- Outcome of a canister method, mirroring azle `Result<T, string>`. -/
inductive Res (α : Type) where
  | Ok : α → Res α
  | Err : String → Res α
  deriving Repr, DecidableEq

/-- A `StableBTreeMap<string, V>` instance: an association list sorted by key. -/
abbrev StableMap (V : Type) := List (String × V)

namespace StableMap

/-- Point lookup (`storage.get(key)`). -/
def get {V : Type} : StableMap V → String → Option V
  | [], _ => none
  | (k, v) :: rest, key => if k = key then some v else get rest key

/-- Insert-or-replace (`storage.insert(key, val)`), keeping the list sorted. -/
def insert {V : Type} : StableMap V → String → V → StableMap V
  | [], key, val => [(key, val)]
  | (k, v) :: rest, key, val =>
    if key = k then (key, val) :: rest
    else if key < k then (key, val) :: (k, v) :: rest
    else (k, v) :: insert rest key val

/-- Delete (`storage.remove(key)`). -/
def remove {V : Type} : StableMap V → String → StableMap V
  | [], _ => []
  | (k, v) :: rest, key => if k = key then rest else (k, v) :: remove rest key

/-- Value enumeration in key order (`storage.values()`). -/
def values {V : Type} (m : StableMap V) : List V := m.map Prod.snd

/-- Record count (`storage.size()`). -/
def size {V : Type} (m : StableMap V) : Nat := m.length

end StableMap

/-- The Zoo record structure. -/
structure Zoo where
  id : String
  name : String
  location : String
  owner : String
  animalSpecies : List String
  image : String
  createdAt : Nat
  updatedAt : Option Nat
  deriving Repr, DecidableEq

/-- The Animal record structure. -/
structure Animal where
  id : String
  age : Int
  animalType : String
  name : String
  zooId : String
  createdAt : Nat
  updatedAt : Option Nat
  deriving Repr, DecidableEq

/-- The payload for creating or updating a Zoo. -/
structure ZooPayload where
  name : String
  location : String
  image : String
  deriving Repr, DecidableEq

/-- The payload for creating or updating an Animal. -/
structure AnimalPayload where
  age : Int
  animalType : String
  name : String
  zooId : String
  deriving Repr, DecidableEq

/-- The two global stores (`zooStorage` and `animalStorage`). -/
structure CanisterState where
  zooStorage : StableMap Zoo
  animalStorage : StableMap Animal
  deriving Repr, DecidableEq

/-- The state at canister installation: both stores empty. -/
def emptyState : CanisterState := { zooStorage := [], animalStorage := [] }

/-- Function `addAnimalToZoo` (textually identical in both source files): looks
up the animal, then the zoo; if the animal id is not yet in the membership
list, pushes it at the end and persists the updated zoo. -/
def addAnimalToZoo (s : CanisterState) (animalId zooId : String) :
    CanisterState × Res Zoo :=
  match StableMap.get s.animalStorage animalId with
  | some _ =>
    match StableMap.get s.zooStorage zooId with
    | some zoo =>
      if !(zoo.animalSpecies.contains animalId) then
        let zoo2 : Zoo := { zoo with animalSpecies := zoo.animalSpecies ++ [animalId] }
        ({ s with zooStorage := StableMap.insert s.zooStorage zooId zoo2 }, .Ok zoo2)
      else
        (s, .Err s!"Animal with ID={animalId} is already in the zoo.")
    | none => (s, .Err s!"Zoo with ID={zooId} not found.")
  | none => (s, .Err s!"Animal with ID={animalId} not found.")

/-- Function `deleteAnimalFromZoo` (textually identical in both source files):
looks up the zoo only; if the animal id is in the membership list, filters it
out and persists the updated zoo. The animal store is never consulted. -/
def deleteAnimalFromZoo (s : CanisterState) (animalId zooId : String) :
    CanisterState × Res Zoo :=
  match StableMap.get s.zooStorage zooId with
  | some zoo =>
    if zoo.animalSpecies.contains animalId then
      let zoo2 : Zoo :=
        { zoo with animalSpecies := zoo.animalSpecies.filter (fun i => i != animalId) }
      ({ s with zooStorage := StableMap.insert s.zooStorage zooId zoo2 }, .Ok zoo2)
    else
      (s, .Err s!"Animal with ID={animalId} is not in the zoo.")
  | none => (s, .Err s!"Zoo with ID={zooId} not found.")

namespace P0

/-- Function `createZoo` of `src/unnamed/part_000`: no validation; builds the
zoo with a fresh id, creation time, empty membership list, the caller as owner
and the payload fields, and persists it. -/
def createZoo (s : CanisterState) (caller : String) (time : Nat) (freshId : String)
    (payload : ZooPayload) : CanisterState × Res Zoo :=
  let zoo : Zoo :=
    { id := freshId, createdAt := time, updatedAt := none, animalSpecies := [],
      owner := caller, name := payload.name, location := payload.location,
      image := payload.image }
  ({ s with zooStorage := StableMap.insert s.zooStorage zoo.id zoo }, .Ok zoo)

/-- Function `getZoo` of `src/unnamed/part_000`. -/
def getZoo (s : CanisterState) (id : String) : Res Zoo :=
  match StableMap.get s.zooStorage id with
  | some zoo => .Ok zoo
  | none => .Err s!"Zoo with ID={id} not found."

/-- Function `getAllZoos` (same body in both source files). -/
def getAllZoos (s : CanisterState) : Res (List Zoo) :=
  .Ok (StableMap.values s.zooStorage)

/-- Function `updateZoo` of `src/unnamed/part_000`: no validation; spreads the
payload over the existing record and stamps `updatedAt`. -/
def updateZoo (s : CanisterState) (time : Nat) (id : String) (payload : ZooPayload) :
    CanisterState × Res Zoo :=
  match StableMap.get s.zooStorage id with
  | some existingZoo =>
    let updatedZoo : Zoo :=
      { existingZoo with
        name := payload.name, location := payload.location,
        image := payload.image, updatedAt := some time }
    ({ s with zooStorage := StableMap.insert s.zooStorage updatedZoo.id updatedZoo },
      .Ok updatedZoo)
  | none => (s, .Err s!"Zoo with ID={id} not found.")

/-- Function `deleteZoo` of `src/unnamed/part_000`: no ownership check. -/
def deleteZoo (s : CanisterState) (id : String) : CanisterState × Res Zoo :=
  match StableMap.get s.zooStorage id with
  | some existingZoo =>
    ({ s with zooStorage := StableMap.remove s.zooStorage id }, .Ok existingZoo)
  | none => (s, .Err s!"Zoo with ID={id} not found.")

/-- Function `createAnimal` of `src/unnamed/part_000`: no validation. -/
def createAnimal (s : CanisterState) (time : Nat) (freshId : String)
    (payload : AnimalPayload) : CanisterState × Res Animal :=
  let animal : Animal :=
    { id := freshId, createdAt := time, updatedAt := none, age := payload.age,
      animalType := payload.animalType, name := payload.name, zooId := payload.zooId }
  ({ s with animalStorage := StableMap.insert s.animalStorage animal.id animal },
    .Ok animal)

/-- Function `getAnimal` of `src/unnamed/part_000`. -/
def getAnimal (s : CanisterState) (id : String) : Res Animal :=
  match StableMap.get s.animalStorage id with
  | some animal => .Ok animal
  | none => .Err s!"Animal with ID={id} not found."

/-- Function `getAllAnimals` (same body in both source files). -/
def getAllAnimals (s : CanisterState) : Res (List Animal) :=
  .Ok (StableMap.values s.animalStorage)

/-- Helper for `getAnimalsInZoo`: the `animalIds.map(...)` loop of
`src/unnamed/part_000`. Each element runs
`match(animalResult, {Some: (animal) => animal, None: null})`; azle's `match`
invokes the selected branch as a function, and `null` is not callable, so the
first membership id that fails to resolve throws a TypeError and the whole
call traps — modelled as `none`. When every id resolves, the mapped animal
records are produced in membership-list order. -/
def resolveMembers (s : CanisterState) : List String → Option (List Animal)
  | [] => some []
  | animalId :: rest =>
    match StableMap.get s.animalStorage animalId with
    | some animal => (resolveMembers s rest).map (fun animals => animal :: animals)
    | none => none

/-- Function `getAnimalsInZoo` of `src/unnamed/part_000`. A trap (TypeError
from invoking the non-callable `None: null` branch, see `resolveMembers`) is
the `none` outcome: the call produces no result at all. On the non-trap path
every mapped element is an animal record — null can only arise from the
branch invocation that instead throws — so the subsequent
`filter(animal => animal !== null)` keeps every element (dead code) and the
resolved records are returned in membership-list order. -/
def getAnimalsInZoo (s : CanisterState) (zooId : String) :
    Option (Res (List Animal)) :=
  match StableMap.get s.zooStorage zooId with
  | some zoo =>
    match resolveMembers s zoo.animalSpecies with
    | some animals => some (.Ok animals)
    | none => none
  | none => some (.Err s!"Zoo with ID={zooId} not found.")

/-- Function `getZooOwner` of `src/unnamed/part_000`. -/
def getZooOwner (s : CanisterState) (zooId : String) : Res String :=
  match StableMap.get s.zooStorage zooId with
  | some zoo => .Ok zoo.owner
  | none => .Err s!"Zoo with ID={zooId} not found."

/-- Function `updateAnimal` of `src/unnamed/part_000`: spreads the payload over
the existing record and stamps `updatedAt`. -/
def updateAnimal (s : CanisterState) (time : Nat) (id : String)
    (payload : AnimalPayload) : CanisterState × Res Animal :=
  match StableMap.get s.animalStorage id with
  | some existingAnimal =>
    let updatedAnimal : Animal :=
      { existingAnimal with
        age := payload.age, animalType := payload.animalType,
        name := payload.name, zooId := payload.zooId, updatedAt := some time }
    ({ s with animalStorage := StableMap.insert s.animalStorage updatedAnimal.id updatedAnimal },
      .Ok updatedAnimal)
  | none => (s, .Err s!"Animal with ID={id} not found.")

/-- Function `deleteAnimal` of `src/unnamed/part_000`: removes and returns the
record; no cleanup of zoo membership lists. -/
def deleteAnimal (s : CanisterState) (id : String) : CanisterState × Res Animal :=
  match StableMap.get s.animalStorage id with
  | some existingAnimal =>
    ({ s with animalStorage := StableMap.remove s.animalStorage id }, .Ok existingAnimal)
  | none => (s, .Err s!"Animal with ID={id} not found.")

/-- Function `getAnimalCountInZoo` of `src/unnamed/part_000`: the length of the
membership list, not the number of resolvable animals. -/
def getAnimalCountInZoo (s : CanisterState) (zooId : String) : Res Nat :=
  match StableMap.get s.zooStorage zooId with
  | some zoo => .Ok zoo.animalSpecies.length
  | none => .Err s!"Zoo with ID={zooId} not found."

/-- Function `getAnimalAge` of `src/unnamed/part_000`. -/
def getAnimalAge (s : CanisterState) (id : String) : Res Int :=
  match StableMap.get s.animalStorage id with
  | some animal => .Ok animal.age
  | none => .Err s!"Animal with ID={id} not found."

/-- Function `getZooCount` of `src/unnamed/part_000`. -/
def getZooCount (s : CanisterState) : Res Nat := .Ok (StableMap.size s.zooStorage)

/-- Function `getAnimalCount` of `src/unnamed/part_000`. -/
def getAnimalCount (s : CanisterState) : Res Nat := .Ok (StableMap.size s.animalStorage)

end P0

namespace Idx

/-- Fixed string standing for the JavaScript source text that
`ic.caller.toString()` yields in `deleteZoo` of `src/src/index.ts`: the code
writes `ic.caller` without parentheses, so `.toString()` is applied to the
function object itself, producing its source text — a constant that does not
depend on the actual caller and is never the textual form of a principal. -/
def icCallerFnText : String := "function caller() [native code]"

/-- Function `createZoo` of `src/src/index.ts`: rejects a payload with any
falsy (empty) field, then builds and persists the zoo. -/
def createZoo (s : CanisterState) (caller : String) (time : Nat) (freshId : String)
    (payload : ZooPayload) : CanisterState × Res Zoo :=
  if payload.name = "" ∨ payload.location = "" ∨ payload.image = "" then
    (s, .Err "Missing required fields in payload")
  else
    let zoo : Zoo :=
      { id := freshId, createdAt := time, updatedAt := none, animalSpecies := [],
        owner := caller, name := payload.name, location := payload.location,
        image := payload.image }
    ({ s with zooStorage := StableMap.insert s.zooStorage zoo.id zoo }, .Ok zoo)

/-- Function `getZooById` of `src/src/index.ts`: rejects a falsy (empty) id
first, then looks the zoo up. -/
def getZooById (s : CanisterState) (id : String) : Res Zoo :=
  if id = "" then .Err s!"Invalid id={id}."
  else
    match StableMap.get s.zooStorage id with
    | some zoo => .Ok zoo
    | none => .Err s!"Zoo with id={id} not found."

/-- Function `updateZoo` of `src/src/index.ts`: rejects a falsy id, then a
payload with any falsy field, then looks the zoo up; on success it rebuilds
the record field by field, keeping `id`, `owner`, `animalSpecies` and
`createdAt`, taking `name`, `location` and `image` from the payload, and
stamping `updatedAt` with the current time. -/
def updateZoo (s : CanisterState) (time : Nat) (id : String) (payload : ZooPayload) :
    CanisterState × Res Zoo :=
  if id = "" then (s, .Err "Invalid id.")
  else if payload.name = "" ∨ payload.location = "" ∨ payload.image = "" then
    (s, .Err "Missing required fields in payload.")
  else
    match StableMap.get s.zooStorage id with
    | some existingZoo =>
      let updatedZoo : Zoo :=
        { id := existingZoo.id, name := payload.name, location := payload.location,
          image := payload.image, owner := existingZoo.owner,
          animalSpecies := existingZoo.animalSpecies, createdAt := existingZoo.createdAt,
          updatedAt := some time }
      ({ s with zooStorage := StableMap.insert s.zooStorage updatedZoo.id updatedZoo },
        .Ok updatedZoo)
    | none => (s, .Err s!"Zoo with id={id} not found.")

/-- Function `deleteZoo` of `src/src/index.ts`: rejects a falsy id, then looks
the zoo up; the ownership test compares `existingZoo.owner.toString()` with
`ic.caller.toString()` — the latter being the source text of the `caller`
function (a fixed string, see `icCallerFnText`), not the caller principal.
The `caller` argument is therefore never consulted. -/
def deleteZoo (s : CanisterState) (caller : String) (id : String) :
    CanisterState × Res Zoo :=
  if id = "" then (s, .Err s!"Invalid id={id}.")
  else
    match StableMap.get s.zooStorage id with
    | some existingZoo =>
      if existingZoo.owner ≠ icCallerFnText then
        (s, .Err "User does not have the right to delete zoo")
      else
        ({ s with zooStorage := StableMap.remove s.zooStorage id }, .Ok existingZoo)
    | none => (s, .Err s!"Zoo with id={id} not found.")

/-- Function `createAnimal` of `src/src/index.ts`: the first check rejects any
falsy field — for the numeric `age` this is `age = 0` — and the second check
rejects `age <= 0`; only then is the animal built and persisted. -/
def createAnimal (s : CanisterState) (time : Nat) (freshId : String)
    (payload : AnimalPayload) : CanisterState × Res Animal :=
  if payload.age = 0 ∨ payload.animalType = "" ∨ payload.name = "" ∨ payload.zooId = "" then
    (s, .Err "Missing required fields in payload")
  else if payload.age ≤ 0 then
    (s, .Err "Age must be greater than zero.")
  else
    let animal : Animal :=
      { id := freshId, createdAt := time, updatedAt := none, age := payload.age,
        animalType := payload.animalType, name := payload.name, zooId := payload.zooId }
    ({ s with animalStorage := StableMap.insert s.animalStorage animal.id animal },
      .Ok animal)

/-- Function `getAnimalById` of `src/src/index.ts`. -/
def getAnimalById (s : CanisterState) (id : String) : Res Animal :=
  if id = "" then .Err s!"Invalid id={id}."
  else
    match StableMap.get s.animalStorage id with
    | some animal => .Ok animal
    | none => .Err s!"Animal with id={id} not found."

end Idx

/-- Outcome of one call of the exposed surface: the success payload of
whichever type the operation returns, the error message, or — for
`getAnimalsInZoo` on a membership list with an unresolvable id — a trap
(the uncaught TypeError rejects the call with no result). -/
inductive OpOutcome where
  | okZoo (zoo : Zoo)
  | okAnimal (animal : Animal)
  | okZooList (zoos : List Zoo)
  | okAnimalList (animals : List Animal)
  | okNat (n : Nat)
  | okInt (i : Int)
  | okText (t : String)
  | err (msg : String)
  | trapped
  deriving Repr, DecidableEq

/-- Injection of a method result into the uniform outcome type. -/
def liftRes {α : Type} (ok : α → OpOutcome) : Res α → OpOutcome
  | .Ok a => ok a
  | .Err msg => .err msg

/-- One call of the exposed surface of either evolution of the canister, with
the environment inputs (caller principal, `ic.time()`, the uuid the generator
returns) as explicit arguments. -/
inductive Op where
  | createZooP0 (caller : String) (time : Nat) (freshId : String) (payload : ZooPayload)
  | createZooIdx (caller : String) (time : Nat) (freshId : String) (payload : ZooPayload)
  | getZooP0 (id : String)
  | getZooByIdIdx (id : String)
  | getAllZoosOp
  | updateZooP0 (time : Nat) (id : String) (payload : ZooPayload)
  | updateZooIdx (time : Nat) (id : String) (payload : ZooPayload)
  | deleteZooP0 (id : String)
  | deleteZooIdx (caller : String) (id : String)
  | createAnimalP0 (time : Nat) (freshId : String) (payload : AnimalPayload)
  | createAnimalIdx (time : Nat) (freshId : String) (payload : AnimalPayload)
  | getAnimalP0 (id : String)
  | getAnimalByIdIdx (id : String)
  | getAllAnimalsOp
  | addAnimalToZooOp (animalId zooId : String)
  | deleteAnimalFromZooOp (animalId zooId : String)
  | getAnimalsInZooOp (zooId : String)
  | getZooOwnerOp (zooId : String)
  | updateAnimalOp (time : Nat) (id : String) (payload : AnimalPayload)
  | deleteAnimalOp (id : String)
  | getAnimalCountInZooOp (zooId : String)
  | getAnimalAgeOp (id : String)
  | getZooCountOp
  | getAnimalCountOp
  deriving Repr, DecidableEq

/-- Semantics of one call: the state after the call and its outcome. Query
methods return the state unchanged by construction, matching their read-only
bodies. -/
def runOp (s : CanisterState) : Op → CanisterState × OpOutcome
  | .createZooP0 caller time freshId payload =>
    let r := P0.createZoo s caller time freshId payload
    (r.1, liftRes .okZoo r.2)
  | .createZooIdx caller time freshId payload =>
    let r := Idx.createZoo s caller time freshId payload
    (r.1, liftRes .okZoo r.2)
  | .getZooP0 id => (s, liftRes .okZoo (P0.getZoo s id))
  | .getZooByIdIdx id => (s, liftRes .okZoo (Idx.getZooById s id))
  | .getAllZoosOp => (s, liftRes .okZooList (P0.getAllZoos s))
  | .updateZooP0 time id payload =>
    let r := P0.updateZoo s time id payload
    (r.1, liftRes .okZoo r.2)
  | .updateZooIdx time id payload =>
    let r := Idx.updateZoo s time id payload
    (r.1, liftRes .okZoo r.2)
  | .deleteZooP0 id =>
    let r := P0.deleteZoo s id
    (r.1, liftRes .okZoo r.2)
  | .deleteZooIdx caller id =>
    let r := Idx.deleteZoo s caller id
    (r.1, liftRes .okZoo r.2)
  | .createAnimalP0 time freshId payload =>
    let r := P0.createAnimal s time freshId payload
    (r.1, liftRes .okAnimal r.2)
  | .createAnimalIdx time freshId payload =>
    let r := Idx.createAnimal s time freshId payload
    (r.1, liftRes .okAnimal r.2)
  | .getAnimalP0 id => (s, liftRes .okAnimal (P0.getAnimal s id))
  | .getAnimalByIdIdx id => (s, liftRes .okAnimal (Idx.getAnimalById s id))
  | .getAllAnimalsOp => (s, liftRes .okAnimalList (P0.getAllAnimals s))
  | .addAnimalToZooOp animalId zooId =>
    let r := addAnimalToZoo s animalId zooId
    (r.1, liftRes .okZoo r.2)
  | .deleteAnimalFromZooOp animalId zooId =>
    let r := deleteAnimalFromZoo s animalId zooId
    (r.1, liftRes .okZoo r.2)
  | .getAnimalsInZooOp zooId =>
    (s, match P0.getAnimalsInZoo s zooId with
        | some r => liftRes .okAnimalList r
        | none => .trapped)
  | .getZooOwnerOp zooId => (s, liftRes .okText (P0.getZooOwner s zooId))
  | .updateAnimalOp time id payload =>
    let r := P0.updateAnimal s time id payload
    (r.1, liftRes .okAnimal r.2)
  | .deleteAnimalOp id =>
    let r := P0.deleteAnimal s id
    (r.1, liftRes .okAnimal r.2)
  | .getAnimalCountInZooOp zooId => (s, liftRes .okNat (P0.getAnimalCountInZoo s zooId))
  | .getAnimalAgeOp id => (s, liftRes .okInt (P0.getAnimalAge s id))
  | .getZooCountOp => (s, liftRes .okNat (P0.getZooCount s))
  | .getAnimalCountOp => (s, liftRes .okNat (P0.getAnimalCount s))

/-- State reached from the empty stores by running a sequence of calls. -/
def execOps (ops : List Op) : CanisterState :=
  ops.foldl (fun s op => (runOp s op).1) emptyState

/-- Invariant: every zoo record in the zoo store carries a duplicate-free
membership list. -/
def ZooNodupInv (s : CanisterState) : Prop :=
  ∀ zoo ∈ StableMap.values s.zooStorage, zoo.animalSpecies.Nodup

/-- Discriminator for the error case of an outcome. -/
def OpOutcome.isErr : OpOutcome → Bool
  | .err _ => true
  | _ => false

/-- Sample zoo record used in concrete evaluations: id `Z1`, owner `C1`. -/
def zooZ1 : Zoo :=
  { id := "Z1", name := "Central Park Zoo", location := "NYC", owner := "C1",
    animalSpecies := [], image := "url", createdAt := 1, updatedAt := none }

/-- Sample animal record used in concrete evaluations: id `A1`. -/
def animalA1 : Animal :=
  { id := "A1", age := 5, animalType := "Lion", name := "Leo", zooId := "Z1",
    createdAt := 2, updatedAt := none }

/-- Sample state: zoo `Z1` (empty membership list) and animal `A1`. -/
def stateZ1A1 : CanisterState :=
  { zooStorage := [("Z1", zooZ1)], animalStorage := [("A1", animalA1)] }

/-- Sample state: zoo `Z1` whose membership list holds `A1` and the orphaned
id `AGone`, while the animal store resolves only `A1`. -/
def orphanState : CanisterState :=
  { zooStorage := [("Z1", { zooZ1 with animalSpecies := ["A1", "AGone"] })],
    animalStorage := [("A1", animalA1)] }

/-- Sample state: zoo `Z1` whose membership list holds exactly `A1`, and `A1`
resolves in the animal store. -/
def stateZ1withA1 : CanisterState :=
  { zooStorage := [("Z1", { zooZ1 with animalSpecies := ["A1"] })],
    animalStorage := [("A1", animalA1)] }

namespace StableMap

theorem get_insert_self {V : Type} (m : StableMap V) (k : String) (v : V) :
    get (insert m k v) k = some v := by
  induction m with
  | nil => simp [insert, get]
  | cons hd tl ih =>
    obtain ⟨k1, v1⟩ := hd
    by_cases h1 : k = k1
    · simp [insert, h1, get]
    · by_cases h2 : k < k1
      · simp [insert, h1, h2, get]
      · simp [insert, h1, h2, get, Ne.symm h1, ih]

theorem get_insert_ne {V : Type} (m : StableMap V) (k k2 : String) (v : V)
    (h : k2 ≠ k) : get (insert m k v) k2 = get m k2 := by
  induction m with
  | nil => simp [insert, get, Ne.symm h]
  | cons hd tl ih =>
    obtain ⟨k1, v1⟩ := hd
    by_cases h1 : k = k1
    · simp [insert, h1, get, Ne.symm h, h1 ▸ Ne.symm h]
    · by_cases h2 : k < k1
      · simp [insert, h1, h2, get, Ne.symm h]
      · simp [insert, h1, h2, get, ih]

theorem mem_values_insert {V : Type} (m : StableMap V) (k : String) (v w : V)
    (h : w ∈ values (insert m k v)) : w = v ∨ w ∈ values m := by
  induction m with
  | nil => simpa [insert, values] using h
  | cons hd tl ih =>
    obtain ⟨k1, v1⟩ := hd
    by_cases h1 : k = k1
    · simp only [insert, if_pos h1] at h
      simp only [values, List.map_cons, List.mem_cons] at h ⊢
      tauto
    · by_cases h2 : k < k1
      · simp only [insert, if_neg h1, if_pos h2] at h
        simp only [values, List.map_cons, List.mem_cons] at h ⊢
        tauto
      · simp only [insert, if_neg h1, if_neg h2] at h
        simp only [values, List.map_cons, List.mem_cons] at h ⊢
        rcases h with h | h
        · tauto
        · rcases ih (by simpa [values] using h) with h3 | h3 <;> tauto

theorem mem_values_remove {V : Type} (m : StableMap V) (k : String) (w : V)
    (h : w ∈ values (remove m k)) : w ∈ values m := by
  induction m with
  | nil => simpa [remove, values] using h
  | cons hd tl ih =>
    obtain ⟨k1, v1⟩ := hd
    by_cases h1 : k1 = k
    · simp only [remove, if_pos h1] at h
      simp only [values, List.map_cons, List.mem_cons]
      exact Or.inr (by simpa [values] using h)
    · simp only [remove, if_neg h1] at h
      simp only [values, List.map_cons, List.mem_cons] at h ⊢
      rcases h with h | h
      · tauto
      · exact Or.inr (by simpa [values] using ih (by simpa [values] using h))

theorem get_mem_values {V : Type} (m : StableMap V) (k : String) (v : V)
    (h : get m k = some v) : v ∈ values m := by
  induction m with
  | nil => simp [get] at h
  | cons hd tl ih =>
    obtain ⟨k1, v1⟩ := hd
    by_cases h1 : k1 = k
    · simp only [get, if_pos h1, Option.some.injEq] at h
      simp only [values, List.map_cons, List.mem_cons]
      tauto
    · simp only [get, if_neg h1] at h
      simp only [values, List.map_cons, List.mem_cons]
      exact Or.inr (by simpa [values] using ih h)

end StableMap

/-- Length of `filterMap` drops strictly below the length of the input list as
soon as one element is mapped to `none`. -/
theorem length_filterMap_lt_of_none {α β : Type} (f : α → Option β) (l : List α)
    (h : ∃ a ∈ l, f a = none) : (l.filterMap f).length < l.length := by
  induction l with
  | nil => simp at h
  | cons hd tl ih =>
    rcases h with ⟨a, ha, hfa⟩
    rcases List.mem_cons.mp ha with h1 | h1
    · subst h1
      rw [List.filterMap_cons, hfa]
      have := List.length_filterMap_le f tl
      simpa using Nat.lt_succ_of_le this
    · rw [List.filterMap_cons]
      cases hf : f hd with
      | none =>
        have := List.length_filterMap_le f tl
        simpa using Nat.lt_succ_of_le this
      | some b =>
        have := ih ⟨a, h1, hfa⟩
        simpa using Nat.succ_lt_succ this

/-- C7: `deleteAnimalFromZoo` fails with the not-found error when the zoo id is
absent, fails with the conflict error when the animal id is not in the zoo's
membership list, and otherwise filters the animal id out of the list, persists
the zoo under its id, and returns it — never touching the animal store, so it
succeeds even for an animal id absent from that store. -/
theorem deleteAnimalFromZoo_spec (s : CanisterState) (animalId zooId : String) :
    (StableMap.get s.zooStorage zooId = none →
      deleteAnimalFromZoo s animalId zooId =
        (s, Res.Err s!"Zoo with ID={zooId} not found.")) ∧
    (∀ zoo : Zoo, StableMap.get s.zooStorage zooId = some zoo →
      animalId ∉ zoo.animalSpecies →
      deleteAnimalFromZoo s animalId zooId =
        (s, Res.Err s!"Animal with ID={animalId} is not in the zoo.")) ∧
    (∀ zoo : Zoo, StableMap.get s.zooStorage zooId = some zoo →
      animalId ∈ zoo.animalSpecies →
      ∃ zoo2 : Zoo,
        deleteAnimalFromZoo s animalId zooId =
          ({ s with zooStorage := StableMap.insert s.zooStorage zooId zoo2 }, Res.Ok zoo2) ∧
        zoo2.animalSpecies = zoo.animalSpecies.filter (fun i => i != animalId) ∧
        animalId ∉ zoo2.animalSpecies ∧
        zoo2.id = zoo.id ∧ zoo2.owner = zoo.owner ∧ zoo2.name = zoo.name ∧
        StableMap.get (deleteAnimalFromZoo s animalId zooId).1.zooStorage zooId = some zoo2 ∧
        (deleteAnimalFromZoo s animalId zooId).1.animalStorage = s.animalStorage) := by
  refine ⟨?_, ?_, ?_⟩
  · intro hz
    simp [deleteAnimalFromZoo, hz]
  · intro zoo hz hmem
    simp [deleteAnimalFromZoo, hz, hmem]
  · intro zoo hz hmem
    refine ⟨{ zoo with animalSpecies := zoo.animalSpecies.filter (fun i => i != animalId) },
      ?_, rfl, ?_, rfl, rfl, rfl, ?_, ?_⟩
    · simp [deleteAnimalFromZoo, hz, hmem]
    · simp [List.mem_filter]
    · simp [deleteAnimalFromZoo, hz, hmem, StableMap.get_insert_self]
    · simp [deleteAnimalFromZoo, hz, hmem]

/-- Witness for C7: in a state whose animal store is empty, removing animal
`A1` from zoo `Z1` whose membership list is `[A1, A2]` succeeds and leaves
`[A2]`. -/
theorem deleteAnimalFromZoo_spec_witness :
    ∃ zoo2 : Zoo,
      deleteAnimalFromZoo
          { zooStorage := [("Z1",
              { id := "Z1", name := "Central Park Zoo", location := "NYC", owner := "C1",
                animalSpecies := ["A1", "A2"], image := "url", createdAt := 1,
                updatedAt := none })], animalStorage := [] } "A1" "Z1" =
        ({ zooStorage := StableMap.insert
              [("Z1",
                { id := "Z1", name := "Central Park Zoo", location := "NYC", owner := "C1",
                  animalSpecies := ["A1", "A2"], image := "url", createdAt := 1,
                  updatedAt := none })] "Z1" zoo2, animalStorage := [] }, Res.Ok zoo2) ∧
      zoo2.animalSpecies = ["A2"] := by
  obtain ⟨zoo2, h1, h2, _⟩ :=
    (deleteAnimalFromZoo_spec
      { zooStorage := [("Z1",
          { id := "Z1", name := "Central Park Zoo", location := "NYC", owner := "C1",
            animalSpecies := ["A1", "A2"], image := "url", createdAt := 1,
            updatedAt := none })], animalStorage := [] } "A1" "Z1").2.2
    { id := "Z1", name := "Central Park Zoo", location := "NYC", owner := "C1",
      animalSpecies := ["A1", "A2"], image := "url", createdAt := 1, updatedAt := none }
    (by simp [StableMap.get]) (by simp)
  exact ⟨zoo2, h1, by simpa using h2⟩

/-- Lemma: when `resolveMembers` does not trap, it yields exactly one animal
record per membership id. -/
theorem resolveMembers_some_length (s : CanisterState) (ids : List String)
    (animals : List Animal) (h : P0.resolveMembers s ids = some animals) :
    animals.length = ids.length := by
  induction ids generalizing animals with
  | nil =>
    simp only [P0.resolveMembers, Option.some.injEq] at h
    subst h; rfl
  | cons animalId rest ih =>
    simp only [P0.resolveMembers] at h
    cases hget : StableMap.get s.animalStorage animalId with
    | none => rw [hget] at h; cases h
    | some animal =>
      rw [hget] at h
      cases hrest : P0.resolveMembers s rest with
      | none => rw [hrest] at h; cases h
      | some tailAnimals =>
        rw [hrest] at h
        have hcons : animals = animal :: tailAnimals := by simpa using h.symm
        subst hcons
        simp [ih tailAnimals hrest]

/-- Lemma: one membership id that fails to resolve makes `resolveMembers`
trap. -/
theorem resolveMembers_none_of_unresolved (s : CanisterState) (ids : List String)
    (h : ∃ animalId ∈ ids, StableMap.get s.animalStorage animalId = none) :
    P0.resolveMembers s ids = none := by
  induction ids with
  | nil => simp at h
  | cons animalId rest ih =>
    rcases h with ⟨badId, hmem, hbad⟩
    rcases List.mem_cons.mp hmem with h1 | h1
    · subst h1
      simp [P0.resolveMembers, hbad]
    · simp only [P0.resolveMembers]
      cases hget : StableMap.get s.animalStorage animalId with
      | none => rfl
      | some animal => simp [ih ⟨badId, h1, hbad⟩]

/-- C8: `getAnimalsInZoo` of `src/unnamed/part_000` resolves the membership
list in order and errs on an absent zoo — but the `None: null` branch of the
inner `match` is invoked as a function by azle, so on the failing input
(zoo `Z1` whose list holds the orphaned id `AGone`) the call throws a
TypeError and traps instead of silently skipping the id, leaving the state
unchanged but producing no result; the skipping described by the claim is the
evident intent of the dead `filter(animal !== null)` and of the
`// Handle missing animals` comment, not the behaviour of the code. -/
theorem getAnimalsInZoo_orphan_traps :
    P0.getAnimalsInZoo stateZ1withA1 "Z1" = some (Res.Ok [animalA1]) ∧
    P0.getAnimalsInZoo stateZ1A1 "ZX" = some (Res.Err "Zoo with ID=ZX not found.") ∧
    StableMap.get orphanState.animalStorage "AGone" = none ∧
    P0.getAnimalsInZoo orphanState "Z1" = none ∧
    (runOp orphanState (Op.getAnimalsInZooOp "Z1")).2 = OpOutcome.trapped ∧
    (runOp orphanState (Op.getAnimalsInZooOp "Z1")).1 = orphanState := by
  refine ⟨?_, by decide, by decide, ?_, ?_, rfl⟩
  · simp [P0.getAnimalsInZoo, P0.resolveMembers, stateZ1withA1, StableMap.get, zooZ1]
  · simp [P0.getAnimalsInZoo, P0.resolveMembers, orphanState, StableMap.get, zooZ1]
  · have h : P0.getAnimalsInZoo orphanState "Z1" = none := by
      simp [P0.getAnimalsInZoo, P0.resolveMembers, orphanState, StableMap.get, zooZ1]
    simp [runOp, h]

/-- C10 counterexample: in `orphanState` the count of zoo `Z1` is 2 and the
membership id `AGone` does not resolve, yet `getAnimalsInZoo` returns no
sequence at all (the call traps), so no returned list of length strictly
below 2 exists. -/
theorem getAnimalsInZoo_shorter_list_counterexample :
    P0.getAnimalCountInZoo orphanState "Z1" = Res.Ok 2 ∧
    StableMap.get orphanState.zooStorage "Z1" =
      some { zooZ1 with animalSpecies := ["A1", "AGone"] } ∧
    StableMap.get orphanState.animalStorage "AGone" = none ∧
    P0.getAnimalsInZoo orphanState "Z1" = none := by
  refine ⟨by decide, by decide, by decide, ?_⟩
  simp [P0.getAnimalsInZoo, P0.resolveMembers, orphanState, StableMap.get, zooZ1]

/-- C10 amended: for a zoo present in the store, `getAnimalCountInZoo` returns
the length of the membership list itself; any list `getAnimalsInZoo` actually
returns has length exactly equal to that count (every membership id resolved),
and as soon as one membership id fails to resolve, `getAnimalsInZoo` traps
instead of returning a shorter sequence. -/
theorem getAnimalCountInZoo_spec (s : CanisterState) (zooId : String) (zoo : Zoo)
    (h : StableMap.get s.zooStorage zooId = some zoo) :
    P0.getAnimalCountInZoo s zooId = Res.Ok zoo.animalSpecies.length ∧
    (∀ l : List Animal, P0.getAnimalsInZoo s zooId = some (Res.Ok l) →
      l.length = zoo.animalSpecies.length) ∧
    ((∃ animalId ∈ zoo.animalSpecies,
        StableMap.get s.animalStorage animalId = none) →
      P0.getAnimalsInZoo s zooId = none) := by
  refine ⟨by simp [P0.getAnimalCountInZoo, h], ?_, ?_⟩
  · intro l hl
    simp only [P0.getAnimalsInZoo, h] at hl
    cases hres : P0.resolveMembers s zoo.animalSpecies with
    | none => rw [hres] at hl; cases hl
    | some animals =>
      rw [hres] at hl
      simp only [Option.some.injEq, Res.Ok.injEq] at hl
      rw [← hl]
      exact resolveMembers_some_length s zoo.animalSpecies animals hres
  · intro hbad
    simp only [P0.getAnimalsInZoo, h]
    rw [resolveMembers_none_of_unresolved s zoo.animalSpecies hbad]

/-- Witness for the amended C10: zoo `Z1` with the single resolvable member
`A1` has count 1 and `getAnimalsInZoo` returns a list of length exactly 1,
while in `orphanState` (count 2, `AGone` unresolved) the query traps. -/
theorem getAnimalCountInZoo_spec_witness :
    P0.getAnimalCountInZoo stateZ1withA1 "Z1" = Res.Ok 1 ∧
    ([animalA1] : List Animal).length = 1 ∧
    P0.getAnimalsInZoo orphanState "Z1" = none := by
  have h1 := getAnimalCountInZoo_spec stateZ1withA1 "Z1"
    { zooZ1 with animalSpecies := ["A1"] }
    (by simp [stateZ1withA1, StableMap.get])
  have h2 := getAnimalCountInZoo_spec orphanState "Z1"
    { zooZ1 with animalSpecies := ["A1", "AGone"] }
    (by simp [orphanState, StableMap.get])
  refine ⟨by simpa [zooZ1] using h1.1, ?_, ?_⟩
  · have := h1.2.1 [animalA1]
      (by simp [stateZ1withA1, P0.getAnimalsInZoo, P0.resolveMembers, StableMap.get, zooZ1])
    simpa [zooZ1] using this
  · exact h2.2.2 ⟨"AGone", by simp [zooZ1], by simp [orphanState, StableMap.get, animalA1]⟩

/-- C9: a payload with strictly positive age and non-empty `animalType`,
`name` and `zooId` passes both checks of `createAnimal` in `src/src/index.ts`
and is persisted — and `createAnimal` of `src/unnamed/part_000` persists it
unconditionally — with no hypothesis anywhere on the zoo store: the `zooId`
reference is not checked against an existing zoo. -/
theorem createAnimal_no_referential_check (s : CanisterState) (time : Nat)
    (freshId : String) (payload : AnimalPayload)
    (hage : 0 < payload.age) (htype : payload.animalType ≠ "")
    (hname : payload.name ≠ "") (hzoo : payload.zooId ≠ "") :
    (∃ animal : Animal,
      Idx.createAnimal s time freshId payload =
        ({ s with animalStorage := StableMap.insert s.animalStorage freshId animal },
          Res.Ok animal) ∧
      animal.id = freshId ∧ animal.age = payload.age ∧
      animal.animalType = payload.animalType ∧ animal.name = payload.name ∧
      animal.zooId = payload.zooId ∧ animal.createdAt = time ∧ animal.updatedAt = none ∧
      StableMap.get (Idx.createAnimal s time freshId payload).1.animalStorage freshId =
        some animal) ∧
    (∃ animal : Animal,
      P0.createAnimal s time freshId payload =
        ({ s with animalStorage := StableMap.insert s.animalStorage freshId animal },
          Res.Ok animal)) := by
  have hne : payload.age ≠ 0 := by omega
  have hle : ¬ payload.age ≤ 0 := by omega
  constructor
  · refine ⟨{ id := freshId, createdAt := time, updatedAt := none, age := payload.age, animalType := payload.animalType, name := payload.name, zooId := payload.zooId }, ?_, rfl, rfl, rfl, rfl, rfl, rfl, rfl, ?_⟩
    · simp [Idx.createAnimal, hne, htype, hname, hzoo, hle]
    · simp [Idx.createAnimal, hne, htype, hname, hzoo, hle, StableMap.get_insert_self]
  · exact ⟨{ id := freshId, createdAt := time, updatedAt := none, age := payload.age, animalType := payload.animalType, name := payload.name, zooId := payload.zooId }, rfl⟩

/-- Witness for C9: the animal payload of the spec scenario is persisted into
a state whose zoo store is empty, although its `zooId` resolves to no zoo. -/
theorem createAnimal_no_referential_check_witness :
    (0 : Int) < 5 ∧
    StableMap.get emptyState.zooStorage "Z1" = none ∧
    (∃ animal : Animal,
      Idx.createAnimal emptyState 2 "A1"
          { age := 5, animalType := "Lion", name := "Leo", zooId := "Z1" } =
        ({ emptyState with
            animalStorage := StableMap.insert emptyState.animalStorage "A1" animal },
          Res.Ok animal) ∧
      animal.id = "A1" ∧ animal.age = 5 ∧ animal.animalType = "Lion" ∧
      animal.name = "Leo" ∧ animal.zooId = "Z1" ∧ animal.createdAt = 2 ∧
      animal.updatedAt = none ∧
      StableMap.get (Idx.createAnimal emptyState 2 "A1"
          { age := 5, animalType := "Lion", name := "Leo", zooId := "Z1" }).1.animalStorage
        "A1" = some animal) := by
  refine ⟨by decide, by simp [emptyState, StableMap.get], ?_⟩
  exact (createAnimal_no_referential_check emptyState 2 "A1"
    { age := 5, animalType := "Lion", name := "Leo", zooId := "Z1" }
    (by decide) (by decide) (by decide) (by decide)).1

/-- C3: when the animal and the zoo both exist and the animal is not yet a
member, the first `addAnimalToZoo` succeeds, appending the animal id at the
end of the membership list; the second call on the resulting state fails with
the conflict error and leaves the state unchanged; afterwards the persisted
membership list contains the animal id exactly once. -/
theorem addAnimalToZoo_idempotence (s : CanisterState) (animalId zooId : String)
    (animal : Animal) (zoo : Zoo)
    (ha : StableMap.get s.animalStorage animalId = some animal)
    (hz : StableMap.get s.zooStorage zooId = some zoo)
    (hnot : animalId ∉ zoo.animalSpecies) :
    ∃ zoo2 : Zoo,
      (addAnimalToZoo s animalId zooId).2 = Res.Ok zoo2 ∧
      zoo2.animalSpecies = zoo.animalSpecies ++ [animalId] ∧
      addAnimalToZoo (addAnimalToZoo s animalId zooId).1 animalId zooId =
        ((addAnimalToZoo s animalId zooId).1,
          Res.Err s!"Animal with ID={animalId} is already in the zoo.") ∧
      StableMap.get (addAnimalToZoo s animalId zooId).1.zooStorage zooId = some zoo2 ∧
      zoo2.animalSpecies.count animalId = 1 := by
  have h1 : addAnimalToZoo s animalId zooId =
      ({ s with
          zooStorage := StableMap.insert s.zooStorage zooId { zoo with animalSpecies := zoo.animalSpecies ++ [animalId] } },
        Res.Ok { zoo with animalSpecies := zoo.animalSpecies ++ [animalId] }) := by
    simp [addAnimalToZoo, ha, hz, hnot]
  refine ⟨{ zoo with animalSpecies := zoo.animalSpecies ++ [animalId] },
    ?_, rfl, ?_, ?_, ?_⟩
  · rw [h1]
  · rw [h1]
    simp [addAnimalToZoo, ha, StableMap.get_insert_self]
  · rw [h1]
    simp [StableMap.get_insert_self]
  · simp [List.count_append, List.count_eq_zero.mpr hnot]

/-- Witness for C3: in the sample state holding animal `A1` and zoo `Z1` with
an empty membership list, adding `A1` to `Z1` twice succeeds once and then
conflicts, with `A1` stored exactly once. -/
theorem addAnimalToZoo_idempotence_witness :
    ∃ zoo2 : Zoo,
      (addAnimalToZoo stateZ1A1 "A1" "Z1").2 = Res.Ok zoo2 ∧
      zoo2.animalSpecies = [] ++ ["A1"] ∧
      addAnimalToZoo (addAnimalToZoo stateZ1A1 "A1" "Z1").1 "A1" "Z1" =
        ((addAnimalToZoo stateZ1A1 "A1" "Z1").1,
          Res.Err "Animal with ID=A1 is already in the zoo.") ∧
      StableMap.get (addAnimalToZoo stateZ1A1 "A1" "Z1").1.zooStorage "Z1" = some zoo2 ∧
      zoo2.animalSpecies.count "A1" = 1 := by
  have h := addAnimalToZoo_idempotence stateZ1A1 "A1" "Z1" animalA1 zooZ1
    (by simp [stateZ1A1, StableMap.get]) (by simp [stateZ1A1, StableMap.get])
    (by simp [zooZ1])
  simpa [zooZ1] using h

/-- C6: for a non-empty id (every stored zoo id is a generated uuid, so the
separate falsy-id branch is unreachable for stored ids), `updateZoo` of
`src/src/index.ts` rejects a payload with an empty `name`, `location` or
`image` before looking anything up; rejects an absent id with the not-found
error; and on success replaces exactly `name`, `location` and `image`,
preserves `id`, `owner`, `animalSpecies` and `createdAt`, sets `updatedAt` to
the current time, persists the record under its id, and returns it. -/
theorem updateZoo_spec (s : CanisterState) (time : Nat) (id : String)
    (payload : ZooPayload) (hid : id ≠ "") :
    ((payload.name = "" ∨ payload.location = "" ∨ payload.image = "") →
      Idx.updateZoo s time id payload =
        (s, Res.Err "Missing required fields in payload.")) ∧
    (∀ zoo : Zoo, StableMap.get s.zooStorage id = some zoo → zoo.id = id →
      payload.name ≠ "" → payload.location ≠ "" → payload.image ≠ "" →
      ∃ zoo2 : Zoo,
        Idx.updateZoo s time id payload =
          ({ s with zooStorage := StableMap.insert s.zooStorage id zoo2 }, Res.Ok zoo2) ∧
        zoo2.name = payload.name ∧ zoo2.location = payload.location ∧
        zoo2.image = payload.image ∧ zoo2.id = zoo.id ∧ zoo2.owner = zoo.owner ∧
        zoo2.animalSpecies = zoo.animalSpecies ∧ zoo2.createdAt = zoo.createdAt ∧
        zoo2.updatedAt = some time ∧
        StableMap.get (Idx.updateZoo s time id payload).1.zooStorage id = some zoo2) ∧
    (StableMap.get s.zooStorage id = none →
      payload.name ≠ "" → payload.location ≠ "" → payload.image ≠ "" →
      Idx.updateZoo s time id payload = (s, Res.Err s!"Zoo with id={id} not found.")) := by
  refine ⟨?_, ?_, ?_⟩
  · intro hbad
    simp [Idx.updateZoo, hid, hbad]
  · intro zoo hz hzid hnm hloc him
    have h1 : Idx.updateZoo s time id payload =
        ({ s with
            zooStorage := StableMap.insert s.zooStorage zoo.id { id := zoo.id, name := payload.name, location := payload.location, image := payload.image, owner := zoo.owner, animalSpecies := zoo.animalSpecies, createdAt := zoo.createdAt, updatedAt := some time } },
          Res.Ok { id := zoo.id, name := payload.name, location := payload.location, image := payload.image, owner := zoo.owner, animalSpecies := zoo.animalSpecies, createdAt := zoo.createdAt, updatedAt := some time }) := by
      simp [Idx.updateZoo, hid, hnm, hloc, him, hz]
    refine ⟨{ id := zoo.id, name := payload.name, location := payload.location, image := payload.image, owner := zoo.owner, animalSpecies := zoo.animalSpecies, createdAt := zoo.createdAt, updatedAt := some time },
      ?_, rfl, rfl, rfl, rfl, rfl, rfl, rfl, rfl, ?_⟩
    · rw [h1, hzid]
    · rw [h1, hzid]
      simp [StableMap.get_insert_self]
  · intro hz hnm hloc him
    simp [Idx.updateZoo, hid, hnm, hloc, him, hz]

/-- Witness for C6: updating zoo `Z1` in the sample state with a fresh name,
location and image stamps `updatedAt` and preserves owner and membership. -/
theorem updateZoo_spec_witness :
    ∃ zoo2 : Zoo,
      Idx.updateZoo stateZ1A1 9 "Z1" { name := "Bronx Zoo", location := "Bronx", image := "url2" } =
        ({ stateZ1A1 with zooStorage := StableMap.insert stateZ1A1.zooStorage "Z1" zoo2 },
          Res.Ok zoo2) ∧
      zoo2.name = "Bronx Zoo" ∧ zoo2.location = "Bronx" ∧ zoo2.image = "url2" ∧
      zoo2.id = "Z1" ∧ zoo2.owner = "C1" ∧ zoo2.animalSpecies = ([] : List String) ∧
      zoo2.createdAt = 1 ∧ zoo2.updatedAt = some 9 := by
  obtain ⟨zoo2, he, h1, h2, h3, h4, h5, h6, h7, h8, _⟩ :=
    ((updateZoo_spec stateZ1A1 9 "Z1"
        { name := "Bronx Zoo", location := "Bronx", image := "url2" }
        (by decide)).2.1) zooZ1
      (by simp [stateZ1A1, StableMap.get]) (by simp [zooZ1])
      (by decide) (by decide) (by decide)
  exact ⟨zoo2, he, h1, h2, h3, by simp [h4, zooZ1], by simp [h5, zooZ1],
    by simp [h6, zooZ1], by simp [h7, zooZ1], h8⟩

/-- C4: every operation of the exposed surface of either evolution, run from
any starting state, leaves both stores exactly as they were whenever it
returns an error outcome: validation, authorization and existence checks all
happen strictly before any store write. -/
theorem opErr_state_unchanged (s : CanisterState) (op : Op)
    (h : ((runOp s op).2).isErr = true) : (runOp s op).1 = s := by
  cases op with
  | createZooP0 caller time freshId payload =>
    simp [runOp, P0.createZoo, liftRes, OpOutcome.isErr] at h
  | createZooIdx caller time freshId payload =>
    by_cases hv : payload.name = "" ∨ payload.location = "" ∨ payload.image = ""
    · simp [runOp, Idx.createZoo, hv]
    · simp [runOp, Idx.createZoo, hv, liftRes, OpOutcome.isErr] at h
  | getZooP0 id => rfl
  | getZooByIdIdx id => rfl
  | getAllZoosOp => rfl
  | updateZooP0 time id payload =>
    cases hz : StableMap.get s.zooStorage id with
    | none => simp [runOp, P0.updateZoo, hz]
    | some zoo => simp [runOp, P0.updateZoo, hz, liftRes, OpOutcome.isErr] at h
  | updateZooIdx time id payload =>
    by_cases hid : id = ""
    · simp [runOp, Idx.updateZoo, hid]
    · by_cases hv : payload.name = "" ∨ payload.location = "" ∨ payload.image = ""
      · simp [runOp, Idx.updateZoo, hid, hv]
      · cases hz : StableMap.get s.zooStorage id with
        | none => simp [runOp, Idx.updateZoo, hid, hv, hz]
        | some zoo => simp [runOp, Idx.updateZoo, hid, hv, hz, liftRes, OpOutcome.isErr] at h
  | deleteZooP0 id =>
    cases hz : StableMap.get s.zooStorage id with
    | none => simp [runOp, P0.deleteZoo, hz]
    | some zoo => simp [runOp, P0.deleteZoo, hz, liftRes, OpOutcome.isErr] at h
  | deleteZooIdx caller id =>
    by_cases hid : id = ""
    · simp [runOp, Idx.deleteZoo, hid]
    · cases hz : StableMap.get s.zooStorage id with
      | none => simp [runOp, Idx.deleteZoo, hid, hz]
      | some zoo =>
        by_cases how : zoo.owner = Idx.icCallerFnText
        · simp [runOp, Idx.deleteZoo, hid, hz, how, liftRes, OpOutcome.isErr] at h
        · simp [runOp, Idx.deleteZoo, hid, hz, how]
  | createAnimalP0 time freshId payload =>
    simp [runOp, P0.createAnimal, liftRes, OpOutcome.isErr] at h
  | createAnimalIdx time freshId payload =>
    by_cases hv : payload.age = 0 ∨ payload.animalType = "" ∨ payload.name = "" ∨ payload.zooId = ""
    · simp [runOp, Idx.createAnimal, hv]
    · by_cases ha : payload.age ≤ 0
      · simp [runOp, Idx.createAnimal, hv, ha]
      · simp [runOp, Idx.createAnimal, hv, ha, liftRes, OpOutcome.isErr] at h
  | getAnimalP0 id => rfl
  | getAnimalByIdIdx id => rfl
  | getAllAnimalsOp => rfl
  | addAnimalToZooOp animalId zooId =>
    cases ha : StableMap.get s.animalStorage animalId with
    | none => simp [runOp, addAnimalToZoo, ha]
    | some animal =>
      cases hz : StableMap.get s.zooStorage zooId with
      | none => simp [runOp, addAnimalToZoo, ha, hz]
      | some zoo =>
        by_cases hmem : animalId ∈ zoo.animalSpecies
        · simp [runOp, addAnimalToZoo, ha, hz, hmem]
        · simp [runOp, addAnimalToZoo, ha, hz, hmem, liftRes, OpOutcome.isErr] at h
  | deleteAnimalFromZooOp animalId zooId =>
    cases hz : StableMap.get s.zooStorage zooId with
    | none => simp [runOp, deleteAnimalFromZoo, hz]
    | some zoo =>
      by_cases hmem : animalId ∈ zoo.animalSpecies
      · simp [runOp, deleteAnimalFromZoo, hz, hmem, liftRes, OpOutcome.isErr] at h
      · simp [runOp, deleteAnimalFromZoo, hz, hmem]
  | getAnimalsInZooOp zooId => rfl
  | getZooOwnerOp zooId => rfl
  | updateAnimalOp time id payload =>
    cases ha : StableMap.get s.animalStorage id with
    | none => simp [runOp, P0.updateAnimal, ha]
    | some animal => simp [runOp, P0.updateAnimal, ha, liftRes, OpOutcome.isErr] at h
  | deleteAnimalOp id =>
    cases ha : StableMap.get s.animalStorage id with
    | none => simp [runOp, P0.deleteAnimal, ha]
    | some animal => simp [runOp, P0.deleteAnimal, ha, liftRes, OpOutcome.isErr] at h
  | getAnimalCountInZooOp zooId => rfl
  | getAnimalAgeOp id => rfl
  | getZooCountOp => rfl
  | getAnimalCountOp => rfl

/-- Witness for C4: deleting a zoo absent from the empty state errs and the
state is unchanged. -/
theorem opErr_state_unchanged_witness :
    ((runOp emptyState (Op.deleteZooP0 "Z1")).2).isErr = true ∧
    (runOp emptyState (Op.deleteZooP0 "Z1")).1 = emptyState :=
  ⟨rfl, opErr_state_unchanged emptyState (Op.deleteZooP0 "Z1") rfl⟩

/-- Single-step preservation of the duplicate-free membership invariant: every
operation of the surface keeps it. `createZoo` writes an empty list, the
update operations copy the existing list, `addAnimalToZoo` appends only an id
that was checked absent, `deleteAnimalFromZoo` filters, and no other
operation writes the zoo store. -/
theorem runOp_preserves_zooNodupInv (s : CanisterState) (op : Op)
    (hinv : ZooNodupInv s) : ZooNodupInv (runOp s op).1 := by
  cases op with
  | createZooP0 caller time freshId payload =>
    intro zoo hzoo
    simp only [runOp, P0.createZoo] at hzoo
    rcases StableMap.mem_values_insert _ _ _ _ hzoo with h | h
    · subst h; exact List.nodup_nil
    · exact hinv zoo h
  | createZooIdx caller time freshId payload =>
    by_cases hv : payload.name = "" ∨ payload.location = "" ∨ payload.image = ""
    · intro zoo hzoo
      simp only [runOp, Idx.createZoo, if_pos hv] at hzoo
      exact hinv zoo hzoo
    · intro zoo hzoo
      simp only [runOp, Idx.createZoo, if_neg hv] at hzoo
      rcases StableMap.mem_values_insert _ _ _ _ hzoo with h | h
      · subst h; exact List.nodup_nil
      · exact hinv zoo h
  | getZooP0 id => exact hinv
  | getZooByIdIdx id => exact hinv
  | getAllZoosOp => exact hinv
  | updateZooP0 time id payload =>
    cases hz : StableMap.get s.zooStorage id with
    | none =>
      intro zoo hzoo
      simp only [runOp, P0.updateZoo, hz] at hzoo
      exact hinv zoo hzoo
    | some existingZoo =>
      intro zoo hzoo
      simp only [runOp, P0.updateZoo, hz] at hzoo
      rcases StableMap.mem_values_insert _ _ _ _ hzoo with h | h
      · subst h
        exact hinv existingZoo (StableMap.get_mem_values _ _ _ hz)
      · exact hinv zoo h
  | updateZooIdx time id payload =>
    by_cases hid : id = ""
    · intro zoo hzoo
      simp only [runOp, Idx.updateZoo, if_pos hid] at hzoo
      exact hinv zoo hzoo
    · by_cases hv : payload.name = "" ∨ payload.location = "" ∨ payload.image = ""
      · intro zoo hzoo
        simp only [runOp, Idx.updateZoo, if_neg hid, if_pos hv] at hzoo
        exact hinv zoo hzoo
      · cases hz : StableMap.get s.zooStorage id with
        | none =>
          intro zoo hzoo
          simp only [runOp, Idx.updateZoo, if_neg hid, if_neg hv, hz] at hzoo
          exact hinv zoo hzoo
        | some existingZoo =>
          intro zoo hzoo
          simp only [runOp, Idx.updateZoo, if_neg hid, if_neg hv, hz] at hzoo
          rcases StableMap.mem_values_insert _ _ _ _ hzoo with h | h
          · subst h
            exact hinv existingZoo (StableMap.get_mem_values _ _ _ hz)
          · exact hinv zoo h
  | deleteZooP0 id =>
    cases hz : StableMap.get s.zooStorage id with
    | none =>
      intro zoo hzoo
      simp only [runOp, P0.deleteZoo, hz] at hzoo
      exact hinv zoo hzoo
    | some existingZoo =>
      intro zoo hzoo
      simp only [runOp, P0.deleteZoo, hz] at hzoo
      exact hinv zoo (StableMap.mem_values_remove _ _ _ hzoo)
  | deleteZooIdx caller id =>
    by_cases hid : id = ""
    · intro zoo hzoo
      simp only [runOp, Idx.deleteZoo, if_pos hid] at hzoo
      exact hinv zoo hzoo
    · cases hz : StableMap.get s.zooStorage id with
      | none =>
        intro zoo hzoo
        simp only [runOp, Idx.deleteZoo, if_neg hid, hz] at hzoo
        exact hinv zoo hzoo
      | some existingZoo =>
        by_cases how : existingZoo.owner = Idx.icCallerFnText
        · intro zoo hzoo
          simp only [runOp, Idx.deleteZoo, if_neg hid, hz, how] at hzoo
          simp only [ne_eq, not_true_eq_false, if_neg, ite_false] at hzoo
          exact hinv zoo (StableMap.mem_values_remove _ _ _ (by simpa using hzoo))
        · intro zoo hzoo
          simp only [runOp, Idx.deleteZoo, if_neg hid, hz] at hzoo
          rw [if_pos (by simpa using how)] at hzoo
          exact hinv zoo hzoo
  | createAnimalP0 time freshId payload =>
    intro zoo hzoo
    simp only [runOp, P0.createAnimal] at hzoo
    exact hinv zoo hzoo
  | createAnimalIdx time freshId payload =>
    intro zoo hzoo
    simp only [runOp, Idx.createAnimal] at hzoo
    split at hzoo
    · exact hinv zoo hzoo
    · split at hzoo
      · exact hinv zoo hzoo
      · exact hinv zoo hzoo
  | getAnimalP0 id => exact hinv
  | getAnimalByIdIdx id => exact hinv
  | getAllAnimalsOp => exact hinv
  | addAnimalToZooOp animalId zooId =>
    cases ha : StableMap.get s.animalStorage animalId with
    | none =>
      intro zoo hzoo
      simp only [runOp, addAnimalToZoo, ha] at hzoo
      exact hinv zoo hzoo
    | some animal =>
      cases hz : StableMap.get s.zooStorage zooId with
      | none =>
        intro zoo hzoo
        simp only [runOp, addAnimalToZoo, ha, hz] at hzoo
        exact hinv zoo hzoo
      | some zoo1 =>
        by_cases hmem : animalId ∈ zoo1.animalSpecies
        · intro zoo hzoo
          simp only [runOp, addAnimalToZoo, ha, hz] at hzoo
          rw [if_neg (by simpa using hmem)] at hzoo
          exact hinv zoo hzoo
        · intro zoo hzoo
          simp only [runOp, addAnimalToZoo, ha, hz] at hzoo
          rw [if_pos (by simpa using hmem)] at hzoo
          rcases StableMap.mem_values_insert _ _ _ _ hzoo with h | h
          · subst h
            have hn := hinv zoo1 (StableMap.get_mem_values _ _ _ hz)
            simp [List.nodup_append, hmem, hn]
          · exact hinv zoo h
  | deleteAnimalFromZooOp animalId zooId =>
    cases hz : StableMap.get s.zooStorage zooId with
    | none =>
      intro zoo hzoo
      simp only [runOp, deleteAnimalFromZoo, hz] at hzoo
      exact hinv zoo hzoo
    | some zoo1 =>
      by_cases hmem : animalId ∈ zoo1.animalSpecies
      · intro zoo hzoo
        simp only [runOp, deleteAnimalFromZoo, hz] at hzoo
        rw [if_pos (by simpa using hmem)] at hzoo
        rcases StableMap.mem_values_insert _ _ _ _ hzoo with h | h
        · subst h
          exact (hinv zoo1 (StableMap.get_mem_values _ _ _ hz)).filter _
        · exact hinv zoo h
      · intro zoo hzoo
        simp only [runOp, deleteAnimalFromZoo, hz] at hzoo
        rw [if_neg (by simpa using hmem)] at hzoo
        exact hinv zoo hzoo
  | getAnimalsInZooOp zooId => exact hinv
  | getZooOwnerOp zooId => exact hinv
  | updateAnimalOp time id payload =>
    intro zoo hzoo
    simp only [runOp, P0.updateAnimal] at hzoo
    split at hzoo
    · exact hinv zoo hzoo
    · exact hinv zoo hzoo
  | deleteAnimalOp id =>
    intro zoo hzoo
    simp only [runOp, P0.deleteAnimal] at hzoo
    split at hzoo
    · exact hinv zoo hzoo
    · exact hinv zoo hzoo
  | getAnimalCountInZooOp zooId => exact hinv
  | getAnimalAgeOp id => exact hinv
  | getZooCountOp => exact hinv
  | getAnimalCountOp => exact hinv

/-- C5: in every state reachable from the empty stores by any sequence of
exposed operations, no zoo record's membership list contains the same animal
identifier twice. -/
theorem reachable_zooNodupInv (ops : List Op) : ZooNodupInv (execOps ops) := by
  suffices h : ∀ s : CanisterState, ZooNodupInv s →
      ZooNodupInv (ops.foldl (fun s op => (runOp s op).1) s) from
    h emptyState (by intro zoo hzoo; simp [emptyState, StableMap.values] at hzoo)
  induction ops with
  | nil => intro s hs; exact hs
  | cons op rest ih =>
    intro s hs
    exact ih _ (runOp_preserves_zooNodupInv s op hs)

/-- C1: in `src/src/index.ts` the ownership test of `deleteZoo` compares the
stored owner with `ic.caller.toString()` — the source text of the `caller`
function, not the calling principal — so even the owner `C1` of zoo `Z1` is
rejected with the authorization message and the zoo stays retrievable; while
`deleteZoo` of `src/unnamed/part_000` removes the zoo with no ownership check
at all, whoever calls. An absent id does fail with the not-found error. -/
theorem deleteZoo_owner_always_rejected :
    zooZ1.owner = "C1" ∧
    Idx.deleteZoo stateZ1A1 "C1" "Z1" =
      (stateZ1A1, Res.Err "User does not have the right to delete zoo") ∧
    Idx.getZooById stateZ1A1 "Z1" = Res.Ok zooZ1 ∧
    P0.getZoo stateZ1A1 "Z1" = Res.Ok zooZ1 ∧
    P0.deleteZoo stateZ1A1 "Z1" =
      ({ stateZ1A1 with zooStorage := StableMap.remove stateZ1A1.zooStorage "Z1" },
        Res.Ok zooZ1) ∧
    Idx.deleteZoo stateZ1A1 "C1" "ZX" =
      (stateZ1A1, Res.Err "Zoo with id=ZX not found.") := by
  refine ⟨rfl, ?_, ?_, ?_, ?_, ?_⟩
  · simp [Idx.deleteZoo, stateZ1A1, zooZ1, StableMap.get, Idx.icCallerFnText]
  · simp [Idx.getZooById, stateZ1A1, StableMap.get]
  · simp [P0.getZoo, stateZ1A1, StableMap.get]
  · simp [P0.deleteZoo, stateZ1A1, StableMap.get]
  · decide

/-- C2 counterexample: `createAnimal({age: 0, ...})` in `src/src/index.ts` is
caught by the falsy-field check (0 is falsy), so the error message is
`Missing required fields in payload`, not the claimed `Age must be greater
than zero`; and in `src/unnamed/part_000` the same call performs no
validation at all and persists the record, growing the animal count to 1. -/
theorem createAnimal_age_zero_message_mismatch :
    Idx.createAnimal emptyState 1 "A1"
        { age := 0, animalType := "Lion", name := "Leo", zooId := "Z1" } =
      (emptyState, Res.Err "Missing required fields in payload") ∧
    ("Missing required fields in payload" : String) ≠ "Age must be greater than zero" ∧
    (∃ animal : Animal,
      P0.createAnimal emptyState 1 "A1"
          { age := 0, animalType := "Lion", name := "Leo", zooId := "Z1" } =
        ({ emptyState with
            animalStorage := StableMap.insert emptyState.animalStorage "A1" animal },
          Res.Ok animal)) ∧
    StableMap.size (P0.createAnimal emptyState 1 "A1"
        { age := 0, animalType := "Lion", name := "Leo", zooId := "Z1" }).1.animalStorage = 1 := by
  refine ⟨by simp [Idx.createAnimal], by decide, ?_, rfl⟩
  exact ⟨{ id := "A1", createdAt := 1, updatedAt := none, age := 0, animalType := "Lion", name := "Leo", zooId := "Z1" }, rfl⟩

/-- C2 amended: in `src/src/index.ts`, `createAnimal` with non-positive age
always fails with a validation error and persists nothing (the animal count
is unchanged); the message is `Missing required fields in payload` when the
age is exactly 0 (falsy) and `Age must be greater than zero.` when the age is
negative and the other fields are non-empty. -/
theorem createAnimal_nonpositive_age_rejected (s : CanisterState) (time : Nat)
    (freshId : String) (payload : AnimalPayload) (h : payload.age ≤ 0) :
    (Idx.createAnimal s time freshId payload).1 = s ∧
    StableMap.size (Idx.createAnimal s time freshId payload).1.animalStorage =
      StableMap.size s.animalStorage ∧
    P0.getAnimalCount (Idx.createAnimal s time freshId payload).1 = P0.getAnimalCount s ∧
    (∃ msg : String, (Idx.createAnimal s time freshId payload).2 = Res.Err msg) ∧
    (payload.age = 0 →
      (Idx.createAnimal s time freshId payload).2 =
        Res.Err "Missing required fields in payload") ∧
    (payload.age < 0 → payload.animalType ≠ "" → payload.name ≠ "" → payload.zooId ≠ "" →
      (Idx.createAnimal s time freshId payload).2 =
        Res.Err "Age must be greater than zero.") := by
  by_cases h0 : payload.age = 0 ∨ payload.animalType = "" ∨ payload.name = "" ∨ payload.zooId = ""
  · refine ⟨by simp [Idx.createAnimal, h0], by simp [Idx.createAnimal, h0],
      by simp [Idx.createAnimal, h0],
      ⟨"Missing required fields in payload", by simp [Idx.createAnimal, h0]⟩, ?_, ?_⟩
    · intro _
      simp [Idx.createAnimal, h0]
    · intro hneg h2 h3 h4
      rcases h0 with h0 | h0 | h0 | h0
      · omega
      · exact absurd h0 h2
      · exact absurd h0 h3
      · exact absurd h0 h4
  · refine ⟨by simp [Idx.createAnimal, h0, h], by simp [Idx.createAnimal, h0, h],
      by simp [Idx.createAnimal, h0, h],
      ⟨"Age must be greater than zero.", by simp [Idx.createAnimal, h0, h]⟩, ?_, ?_⟩
    · intro h1
      exact absurd (Or.inl h1) h0
    · intro _ _ _ _
      simp [Idx.createAnimal, h0, h]

/-- Witness for the amended C2: the spec scenario payload with age 0, run
against the empty state, errs with the falsy-field message and persists
nothing. -/
theorem createAnimal_nonpositive_age_rejected_witness :
    ((0 : Int) ≤ 0) ∧
    (Idx.createAnimal emptyState 1 "A1"
        { age := 0, animalType := "Lion", name := "Leo", zooId := "Z1" }).1 = emptyState ∧
    (Idx.createAnimal emptyState 1 "A1"
        { age := 0, animalType := "Lion", name := "Leo", zooId := "Z1" }).2 =
      Res.Err "Missing required fields in payload" := by
  have h := createAnimal_nonpositive_age_rejected emptyState 1 "A1"
    { age := 0, animalType := "Lion", name := "Leo", zooId := "Z1" } (by decide)
  exact ⟨by decide, h.1, h.2.2.2.2.1 rfl⟩
